import Mathlib

/-!
# source-vs-npm: verification of the build-reproduction and diff-classification pipeline

Shallow embedding of the two core components of the repository:

* the artifact diff classifier, embedded from the current revision of the
  audit script (`auditPackage`, the revision that reads `buildResult.json`
  and consults the `knownMismatches` allow-list before rule evaluation), and
* the repository build resolver, embedded from `src/docker/buildPackage.js`
  (the revision that writes `buildResult.json`).

External effects (process spawning, filesystem, network) are modelled by an
explicit environment record describing their outcomes, and the resolver is
given a small-step effect trace so that statements such as "no install step
is performed before the failure" are expressible.
-/

namespace SourceVsNpm

/-! ## String primitives

Kernel-evaluable counterparts of the JS string operations the scripts use
(`startsWith`, `endsWith`, `trim`, `split`, `slice(1)`, `includes("/")`),
written by structural recursion over the character list so that concrete
runs can be settled by `decide`. -/

/-- JS `s.startsWith(pre)`. -/
def strStartsWith (s pre : String) : Bool :=
  pre.data.isPrefixOf s.data

/-- JS `s.endsWith(suf)`. -/
def strEndsWith (s suf : String) : Bool :=
  suf.data.isSuffixOf s.data

/-- JS `s.includes(c)` for a one-character needle. -/
def strContainsChar (s : String) (c : Char) : Bool :=
  s.data.contains c

/-- JS `s.trim()` (restricted to ASCII whitespace). -/
def strTrim (s : String) : String :=
  ⟨((s.data.dropWhile Char.isWhitespace).reverse.dropWhile Char.isWhitespace).reverse⟩

/-- JS `s.slice(1)`. -/
def strDrop1 (s : String) : String :=
  ⟨s.data.drop 1⟩

/-- Worker for `strSplitOnChar`; `acc` is the current field, reversed. -/
def splitOnCharAux (sep : Char) : List Char → List Char → List (List Char)
  | [], acc => [acc.reverse]
  | c :: cs, acc =>
    if c = sep then acc.reverse :: splitOnCharAux sep cs []
    else splitOnCharAux sep cs (c :: acc)

/-- JS `s.split(sep)` for a one-character separator. -/
def strSplitOnChar (s : String) (sep : Char) : List String :=
  (splitOnCharAux sep s.data []).map (fun cs => ⟨cs⟩)

/-! ## Diff classifier (auditPackage, current revision) -/

/-- The known-mismatch allow-list, embedded from `knownMismatches.js`:
a map from package name to the list of versions whose mismatch is expected. -/
def knownMismatches : List (String × List String) :=
  [("safe-buffer", ["5.2.1"]),
   ("resolve", ["1.22.10"]),
   ("iconv-lite", ["0.6.3"])]

/-- `packageName in knownMismatches && knownMismatches[packageName].includes(version)`. -/
def inKnownMismatches (packageName version : String) : Bool :=
  match knownMismatches.find? (fun p => p.1 == packageName) with
  | some p => p.2.contains version
  | none => false

/-- The `type` tag of a parsed change record: `"published-only"`,
`"build-only"` or `"change"` in the source. -/
inductive ChangeType
  | publishedOnly
  | buildOnly
  | change
deriving DecidableEq, Repr

/-- One entry of the `changes` list built by `auditPackage` from the raw
`diff -ur` output. `path` is rooted at the stripped tarball top-level folder
and keeps its leading slash (e.g. `"/CHANGELOG.md"`), as in the source. -/
structure ChangeRecord where
  type : ChangeType
  path : String
deriving DecidableEq, Repr

/-- The body of the `changes.every((change) => ...)` callback: the fixed
benign-mismatch rule table. A change is benign iff some rule accepts it. -/
def isBenignChange (packageName : String) (c : ChangeRecord) : Bool :=
  -- Rule 1: published-only /CHANGELOG.md or /.npmignore at the package root.
  (c.type == ChangeType.publishedOnly
    && (c.path == "/CHANGELOG.md" || c.path == "/.npmignore"))
  -- Rule 2: any path ending in /tsconfig.tsbuildinfo.
  || strEndsWith c.path "/tsconfig.tsbuildinfo"
  -- Rule 3: for @types/* packages, the three regenerated root files.
  || (strStartsWith packageName "@types/"
      && ["/package.json", "/README.md", "/LICENSE"].contains c.path)

/-- Outcome of running `diff -ur built published`: exit 0 (`identical`), or a
nonzero exit carrying the raw stdout together with the change records that
the regex/patch parsing of that output yields. The textual parsing
(`matchAll` of the `Only in` lines plus `parsePatch` on the rest) is kept
abstract: `changes` is the list that parse produces. -/
inductive DiffOutcome
  | identical
  | failed (output : String) (changes : List ChangeRecord)
deriving DecidableEq, Repr

/-- The classification-relevant fields of `resultJson`: both are absent
(`none`) until assigned. -/
structure AuditVerdict where
  contentMatches : Option Bool := none
  isKnownBenignMismatch : Option Bool := none
deriving DecidableEq, Repr

/-- Result of the classification phase of `auditPackage`: either the try
block completes (`ok`), or a thrown error is caught by the surrounding
catch, which records the error category next to whatever verdict fields had
been assigned by then (`error`). -/
inductive ClassifyOutcome
  | ok (verdict : AuditVerdict)
  | error (category : String) (verdict : AuditVerdict)
deriving DecidableEq, Repr

/-- The verdict fields of `resultJson` as finally written to disk. -/
def ClassifyOutcome.finalVerdict : ClassifyOutcome → AuditVerdict
  | .ok v => v
  | .error _ v => v

/-- The diff-classification tail of `auditPackage` (current revision), as a
function of the diff outcome. Mirrors the source: `expectBenignMismatch` is
computed from the allow-list, the diff always runs, a failed diff with
whitespace-only output throws (`"diff failed, but with no output"`, caught
as an `unexpected crash`), an allow-listed mismatch skips rule evaluation,
otherwise `isKnownBenignMismatch := changes.every(benign-rule)`; finally a
clean diff for an allow-listed pair throws
(`"expected a benign mismatch, but content matched"`). -/
def classify (packageName version : String) (d : DiffOutcome) : ClassifyOutcome :=
  let expectBenignMismatch := inKnownMismatches packageName version
  match d with
  | .identical =>
    let r : AuditVerdict := { contentMatches := some true }
    if expectBenignMismatch then
      ClassifyOutcome.error "unexpected crash" r
    else
      ClassifyOutcome.ok r
  | .failed output changes =>
    if strTrim output == "" then
      ClassifyOutcome.error "unexpected crash" {}
    else
      let r : AuditVerdict := { contentMatches := some false }
      if expectBenignMismatch then
        ClassifyOutcome.ok { r with isKnownBenignMismatch := some true }
      else
        ClassifyOutcome.ok
          { r with isKnownBenignMismatch := some (changes.all (isBenignChange packageName)) }

/-! ## Repository check (registry response handling in auditPackage) -/

/-- The `repository` field of the registry response: wholly absent (or
`null`), a bare string descriptor, or an object descriptor whose `type`
field may itself be absent (`none`). -/
inductive RepoField
  | absent
  | strDesc (s : String)
  | objDesc (type : Option String) (url : String)
deriving DecidableEq, Repr

/-- JS truthiness of `registryRespJson.repository` (objects are truthy,
strings are truthy iff non-empty). -/
def repoTruthy : RepoField → Bool
  | .absent => false
  | .strDesc s => s != ""
  | .objDesc _ _ => true

/-- The JS value of `registryRespJson.repository.type`; `none` models
`undefined` (reading `.type` off a bare string or an absent field). -/
def repoTypeField : RepoField → Option String
  | .absent => none
  | .strDesc _ => none
  | .objDesc t _ => t

/-- JS truthiness of `registryRespJson.repository.type`. -/
def repoTypeTruthy (r : RepoField) : Bool :=
  match repoTypeField r with
  | none => false
  | some t => t != ""

/-- The two repository guards of `auditPackage` (current revision), in source
order: `if (!repository) throw JobFailed("no repository", ...)`, then
`if (repository.type != "git" && repository.type) throw JobFailed("not git",
...)` (the second conjunct is the source's "Assume Git if not specified").
Returns the `JobFailed` category, or `none` when the audit proceeds. -/
def repoCheck (r : RepoField) : Option String :=
  if !repoTruthy r then
    some "no repository"
  else if (repoTypeField r != some "git") && repoTypeTruthy r then
    some "not git"
  else
    none

/-! ## Repository build resolver (src/docker/buildPackage.js) -/

/-- Remove the first occurrence of `'@'` from a string: JS
`s.replace("@", "")` with a one-character pattern. -/
def removeFirstAtAux : List Char → List Char
  | [] => []
  | c :: cs => if c = '@' then cs else c :: removeFirstAtAux cs

/-- JS `s.replace("@", "")`. -/
def removeFirstAt (s : String) : String :=
  ⟨removeFirstAtAux s.data⟩

/-- The first subdirectory-candidate loop (all package names); paths are
repo-root-relative. -/
def plainSubdirCandidates (packageName : String) : List String :=
  [packageName, "packages/" ++ packageName]

/-- The widened subdirectory-candidate loop for names containing `/`,
in source order, using `[namespace, subname] = packageName.split("/")`,
`noAtNs = namespace.replace("@", "")` and
`noAtPkgName = packageName.replace("@", "")`. -/
def scopedSubdirCandidates (packageName : String) : List String :=
  let parts := strSplitOnChar packageName '/'
  let ns := parts.headD ""
  let subname := parts.getD 1 ""
  let noAtNs := removeFirstAt ns
  let noAtPkgName := removeFirstAt packageName
  [packageName,
   "packages/" ++ packageName,
   subname,
   "packages/" ++ subname,
   noAtPkgName,
   "packages/" ++ noAtPkgName,
   noAtNs ++ "-" ++ subname,
   "packages/" ++ noAtNs ++ "-" ++ subname]

/-- The `packageSubdir` search of buildPackage.js. `manifestDirs` is the set
of repo-root-relative directories containing a `package.json` (`""` is the
repo root itself); `existsSync(dir + "/package.json")` is membership in it.
The first matching candidate wins; scoped names fall through to the widened
candidate list. -/
def packageSubdirSearch (packageName : String) (manifestDirs : List String) :
    Option String :=
  match (plainSubdirCandidates packageName).find? (fun d => manifestDirs.contains d) with
  | some d => some d
  | none =>
    if strContainsChar packageName '/' then
      (scopedSubdirCandidates packageName).find? (fun d => manifestDirs.contains d)
    else
      none

/-- The `possibleTagNames` list of buildPackage.js: the six full-name
variants, with the four unscoped-subname variants prepended when the name
contains `/` (`subname = packageName.split("/").pop()`). -/
def possibleTagNames (packageName version : String) : List String :=
  let base :=
    [packageName ++ "-" ++ version,
     packageName ++ "-v" ++ version,
     packageName ++ "@" ++ version,
     packageName ++ "/" ++ version,
     version,
     "v" ++ version]
  if strContainsChar packageName '/' then
    let subname := (strSplitOnChar packageName '/').getLastD ""
    [subname ++ "-" ++ version,
     subname ++ "-v" ++ version,
     subname ++ "@" ++ version,
     subname ++ "/" ++ version] ++ base
  else
    base

/-- The tag-checkout loop: attempt `git checkout refs/tags/<t>` for each
candidate until one succeeds (i.e. the tag exists). Returns the chosen tag
(or `none`) together with the list of tags whose checkout was attempted. -/
def tagCheckoutLoop (candidates existingTags : List String) :
    Option String × List String :=
  match candidates with
  | [] => (none, [])
  | t :: rest =>
    if existingTags.contains t then (some t, [t])
    else
      let (r, attempted) := tagCheckoutLoop rest existingTags
      (r, t :: attempted)

/-- One observable external step of the resolver. -/
inductive BStep
  | cloneRun
  | checkoutAttempt (tag : String)
  | installRun (cwd : Option String)
  | buildRun (cmd : List String) (cwd : Option String)
  | packRun (cwd : String)
deriving DecidableEq, Repr

/-- Steps that the resolver's contract distinguishes: dependency installs,
build-script (or make) invocations, and packing. -/
def BStep.isInstallBuildOrPack : BStep → Bool
  | .installRun _ => true
  | .buildRun _ _ => true
  | .packRun _ => true
  | _ => false

/-- Tag checkouts, installs and build invocations (everything the `@types/*`
special case is meant to skip). -/
def BStep.isCheckoutInstallOrBuild : BStep → Bool
  | .checkoutAttempt _ => true
  | .installRun _ => true
  | .buildRun _ _ => true
  | _ => false

/-- Outcomes of the external commands buildPackage.js runs, and the
filesystem facts it inspects. Directories are repo-root-relative; `""` is
the repo root. `yarnTarballLine` is the capture group of the first matching
tarball-name regex on the yarn pack output (`none` = neither pattern
matched). -/
structure RepoEnv where
  cloneSucceeds : Bool := true
  gitUrl : String := ""
  existingTags : List String := []
  manifestDirs : List String := [""]
  hasYarnLock : Bool := false
  hasPnpmLock : Bool := false
  rootScriptsHasBuild : Bool := false
  subdirScriptsHasBuild : Bool := false
  subdirBuildSucceeds : Bool := true
  rootBuildWithArgSucceeds : Bool := true
  rootBuildSucceeds : Bool := true
  makePrepublishSucceeds : Bool := true
  useCleanPublish : Bool := false
  cleanPublishSucceeds : Bool := true
  packSucceeds : Bool := true
  yarnTarballLine : Option String := some "package.tgz"
  npmPackLastLine : String := "package.tgz"
deriving DecidableEq, Repr

/-- The `buildResult` object of buildPackage.js. `ranBuildFrom = some none`
records an `attemptBuild` invoked with no working-directory argument. -/
structure BuildResultRec where
  packageManager : Option String := none
  subdir : Option String := none
  isDefinitelyTyped : Bool := false
  tag : Option String := none
  successfulBuildCommand : Option (List String) := none
  ranBuildFrom : Option (Option String) := none
  isBabel : Bool := false
  isReact : Bool := false
  isPackedFromBuildDir : Bool := false
  usesCleanPublish : Bool := false
  tarballFilename : Option String := none
  errorCode : Option String := none
deriving DecidableEq, Repr

/-- Relative `process.chdir` applied to a repo-root-relative cwd. -/
def joinRel (cwd p : String) : String :=
  if cwd = "" then p else cwd ++ "/" ++ p

/-- The install plus build-script section of buildPackage.js (guarded by
`!packageName.startsWith("@types/")` in the source; only called on that
path here). Returns the updated `buildResult`, the emitted steps, and
`false` when an uncaught build failure aborts the run (the root-level build
attempts are not wrapped in try/catch, unlike the subdirectory attempt and
the with-argument attempt). -/
def installBuildPhase (packageName pkgMngr : String) (subdir : Option String)
    (env : RepoEnv) (r : BuildResultRec) : BuildResultRec × List BStep × Bool :=
  let installSteps : List BStep :=
    [BStep.installRun none] ++
      (match subdir with
       | some d => [BStep.installRun (some d)]
       | none => [])
  -- Subdirectory build attempt; its failure is caught and falls through.
  let subdirAttempt : BuildResultRec × List BStep × Bool :=
    match subdir with
    | some d =>
      if env.subdirScriptsHasBuild then
        if env.subdirBuildSucceeds then
          ({ r with
              successfulBuildCommand := some [pkgMngr, "run", "build"],
              ranBuildFrom := some (some d) },
           [BStep.buildRun [pkgMngr, "run", "build"] (some d)], true)
        else
          (r, [BStep.buildRun [pkgMngr, "run", "build"] (some d)], false)
      else (r, [], false)
    | none => (r, [], false)
  let r₁ := subdirAttempt.1
  let steps₁ := subdirAttempt.2.1
  let hasBuilt := subdirAttempt.2.2
  -- Root-level build attempt, only when nothing has built yet.
  if !hasBuilt && env.rootScriptsHasBuild then
    match subdir with
    | some _ =>
      -- First with the package name as an argument; on failure retry bare,
      -- and a failure of the bare retry is uncaught.
      if env.rootBuildWithArgSucceeds then
        ({ r₁ with
            successfulBuildCommand := some [pkgMngr, "run", "build", packageName],
            ranBuildFrom := some none },
         installSteps ++ steps₁ ++
           [BStep.buildRun [pkgMngr, "run", "build", packageName] none], true)
      else if env.rootBuildSucceeds then
        ({ r₁ with
            successfulBuildCommand := some [pkgMngr, "run", "build"],
            ranBuildFrom := some none },
         installSteps ++ steps₁ ++
           [BStep.buildRun [pkgMngr, "run", "build", packageName] none,
            BStep.buildRun [pkgMngr, "run", "build"] none], true)
      else
        (r₁,
         installSteps ++ steps₁ ++
           [BStep.buildRun [pkgMngr, "run", "build", packageName] none,
            BStep.buildRun [pkgMngr, "run", "build"] none], false)
    | none =>
      if env.rootBuildSucceeds then
        ({ r₁ with
            successfulBuildCommand := some [pkgMngr, "run", "build"],
            ranBuildFrom := some none },
         installSteps ++ steps₁ ++ [BStep.buildRun [pkgMngr, "run", "build"] none], true)
      else
        (r₁, installSteps ++ steps₁ ++ [BStep.buildRun [pkgMngr, "run", "build"] none],
         false)
  else
    (r₁, installSteps ++ steps₁, true)

/-- The tail of buildPackage.js after the install/build section: the Babel
`make prepublish` override, the React build-output chdir, the generic
subdirectory chdir, the `./build/package.json` descent, clean-publish
detection, and packing. `cwd₀` is the working directory on entry (the
`@types` directory on that path, the repo root otherwise). The
clean-publish invocation and its `tar -czf` compression are collapsed into
the single `packRun` step. Returns `false` when an uncaught failure aborts
the run. -/
def specialCaseAndPackPhase (packageName version _pkgMngr : String)
    (subdir : Option String) (cwd₀ : String) (env : RepoEnv) (r : BuildResultRec) :
    BuildResultRec × List BStep × Bool :=
  -- Babel: `make prepublish` unconditionally, via attemptBuild (no cwd).
  let babel : BuildResultRec × List BStep × Bool :=
    if env.gitUrl == "https://github.com/babel/babel.git" then
      if env.makePrepublishSucceeds then
        ({ r with
            isBabel := true,
            successfulBuildCommand := some ["make", "prepublish"],
            ranBuildFrom := some none },
         [BStep.buildRun ["make", "prepublish"] none], true)
      else
        ({ r with isBabel := true }, [BStep.buildRun ["make", "prepublish"] none], false)
    else (r, [], true)
  let r₁ := babel.1
  let steps₁ := babel.2.1
  if !babel.2.2 then (r₁, steps₁, false)
  else
    -- React: chdir into the staged build output; otherwise chdir into the
    -- package subdirectory when one was found.
    let reactAndChdir : BuildResultRec × String :=
      if env.gitUrl == "https://github.com/facebook/react.git" then
        ({ r₁ with isReact := true },
         joinRel cwd₀ ("build/oss-stable-semver/" ++ packageName))
      else
        match subdir with
        | some d => (r₁, d)
        | none => (r₁, cwd₀)
    let r₂ := reactAndChdir.1
    let cwd₁ := reactAndChdir.2
    -- `./build/package.json` descent.
    let buildDirStep : BuildResultRec × String :=
      if env.manifestDirs.contains (joinRel cwd₁ "build") then
        ({ r₂ with isPackedFromBuildDir := true }, joinRel cwd₁ "build")
      else (r₂, cwd₁)
    let r₃ := { buildDirStep.1 with usesCleanPublish := env.useCleanPublish }
    let cwd₂ := buildDirStep.2
    if env.useCleanPublish then
      if env.cleanPublishSucceeds then
        ({ r₃ with tarballFilename := some (packageName ++ "-" ++ version ++ ".tgz") },
         steps₁ ++ [BStep.packRun cwd₂], true)
      else
        (r₃, steps₁ ++ [BStep.packRun cwd₂], false)
    else
      if env.packSucceeds then
        if env.hasYarnLock then
          match env.yarnTarballLine with
          | some line =>
            ({ r₃ with tarballFilename := some ((strSplitOnChar line '/').getLastD "") },
             steps₁ ++ [BStep.packRun cwd₂], true)
          | none =>
            -- throw "couldn't determine tarball name"
            (r₃, steps₁ ++ [BStep.packRun cwd₂], false)
        else
          ({ r₃ with tarballFilename := some env.npmPackLastLine },
           steps₁ ++ [BStep.packRun cwd₂], true)
      else
        (r₃, steps₁ ++ [BStep.packRun cwd₂], false)

/-- The whole of buildPackage.js as a function of the inputs and the command
environment: the final `buildResult` written to `buildResult.json` and the
trace of external steps. Clone failure maps to `"clone failed"`, exhausting
the tag candidates to `"no tag match"`, and any uncaught exception to
`"unexpected-error"` (including a missing `package.json` at the directory
whose manifest the script reads). -/
def buildPackage (packageName version : String) (env : RepoEnv) :
    BuildResultRec × List BStep :=
  if !env.cloneSucceeds then
    ({ errorCode := some "clone failed" }, [BStep.cloneRun])
  else
    let pkgMngr :=
      if env.hasYarnLock then "yarn" else if env.hasPnpmLock then "pnpm" else "npm"
    let subdir := packageSubdirSearch packageName env.manifestDirs
    let r : BuildResultRec := { packageManager := some pkgMngr, subdir := subdir }
    if strStartsWith packageName "@types/" then
      -- @types special case: chdir(packageName.slice(1)), skip tags and builds.
      let r := { r with isDefinitelyTyped := true }
      let cwd := strDrop1 packageName
      if !(env.manifestDirs.contains cwd) then
        -- readFile("package.json") at the new cwd throws: uncaught.
        ({ r with errorCode := some "unexpected-error" }, [BStep.cloneRun])
      else
        let tail := specialCaseAndPackPhase packageName version pkgMngr subdir cwd env r
        ((if tail.2.2 then tail.1 else { tail.1 with errorCode := some "unexpected-error" }),
         BStep.cloneRun :: tail.2.1)
    else
      let loop := tagCheckoutLoop (possibleTagNames packageName version) env.existingTags
      match loop.1 with
      | none =>
        ({ r with errorCode := some "no tag match" },
         BStep.cloneRun :: loop.2.map BStep.checkoutAttempt)
      | some tag =>
        let r := { r with tag := some tag }
        if !(env.manifestDirs.contains "") then
          -- readFile("package.json") at the repo root throws: uncaught.
          ({ r with errorCode := some "unexpected-error" },
           BStep.cloneRun :: loop.2.map BStep.checkoutAttempt)
        else
          let ib := installBuildPhase packageName pkgMngr subdir env r
          if !ib.2.2 then
            ({ ib.1 with errorCode := some "unexpected-error" },
             BStep.cloneRun :: loop.2.map BStep.checkoutAttempt ++ ib.2.1)
          else
            let tail := specialCaseAndPackPhase packageName version pkgMngr subdir "" env ib.1
            ((if tail.2.2 then tail.1
              else { tail.1 with errorCode := some "unexpected-error" }),
             BStep.cloneRun :: loop.2.map BStep.checkoutAttempt ++ ib.2.1 ++ tail.2.1)

/-- Modelled from the spec's words, for comparison with `possibleTagNames`
(C4): "bare version, `v`-prefixed version, `<name>-version`,
`<name>-v<version>`, `<name>@<version>`, `<name>/<version>`, and (when
scoped) the same variants using the unscoped subname, subname taking
priority over the full scoped name". -/
def claimedTagNames (packageName version : String) : List String :=
  let nameVariants (n : String) : List String :=
    [n ++ "-" ++ version, n ++ "-v" ++ version, n ++ "@" ++ version, n ++ "/" ++ version]
  [version, "v" ++ version] ++
    (if strContainsChar packageName '/' then
      nameVariants ((strSplitOnChar packageName '/').getLastD "")
    else []) ++
    nameVariants packageName

/-! ## Helper lemmas -/

/-- The changelog benign rule accepts a published-only root `/CHANGELOG.md`
for every package name. -/
theorem isBenignChange_changelog (packageName : String) :
    isBenignChange packageName ⟨ChangeType.publishedOnly, "/CHANGELOG.md"⟩ = true := by
  simp [isBenignChange]

/-- The tag-checkout loop selects the first candidate that exists. -/
theorem tagCheckoutLoop_fst (candidates existingTags : List String) :
    (tagCheckoutLoop candidates existingTags).1
      = candidates.find? (fun t => existingTags.contains t) := by
  induction candidates with
  | nil => rfl
  | cons t rest ih =>
    by_cases h : t ∈ existingTags
    · simp [tagCheckoutLoop, List.find?_cons, h]
    · simp [tagCheckoutLoop, List.find?_cons, h, ih]

/-- When no candidate tag exists, the loop attempts every candidate and
reports failure. -/
theorem tagCheckoutLoop_none (candidates existingTags : List String)
    (h : ∀ t ∈ candidates, existingTags.contains t = false) :
    tagCheckoutLoop candidates existingTags = (none, candidates) := by
  induction candidates with
  | nil => rfl
  | cons t rest ih =>
    have ht : t ∉ existingTags := by simpa using h t (List.mem_cons_self t rest)
    have hrest : ∀ x ∈ rest, existingTags.contains x = false :=
      fun x hx => h x (List.mem_cons_of_mem _ hx)
    simp [tagCheckoutLoop, ht, ih hrest]

/-! ## Claims -/

/-- C1 counterexample: the current revision does not short-circuit on the
allow-list. For `("safe-buffer", "5.2.1")` — which is in the allow-list —
the diff is still consulted, and when it reports no differences the audit
does not produce the verdict `contentMatches=false, isKnownBenignMismatch
=true` at all: it throws (`"expected a benign mismatch, but content
matched"`) and records an unexpected-crash error with `contentMatches=true`.
The third conjunct exhibits that the outcome depends on the diff's result. -/
theorem c1_counterexample :
    classify "safe-buffer" "5.2.1" DiffOutcome.identical
        = ClassifyOutcome.error "unexpected crash" { contentMatches := some true }
    ∧ classify "safe-buffer" "5.2.1" DiffOutcome.identical
        ≠ ClassifyOutcome.ok { contentMatches := some false, isKnownBenignMismatch := some true }
    ∧ classify "safe-buffer" "5.2.1" (DiffOutcome.failed "x" [])
        ≠ classify "safe-buffer" "5.2.1" DiffOutcome.identical := by
  decide

/-- C1 (amended): for every `(packageName, version)` in the known-mismatch
allow-list, the diff still runs; when it reports differences (non-blank
output) the verdict is `contentMatches=false, isKnownBenignMismatch=true`
and no benign-rule evaluation is performed (the verdict is independent of
the parsed change list); when the diff reports no differences the audit
records an unexpected-crash error instead of that verdict. -/
theorem c1_allowlist_skips_rules (packageName version output : String)
    (changes changes' : List ChangeRecord)
    (h : inKnownMismatches packageName version = true)
    (hout : strTrim output ≠ "") :
    classify packageName version (DiffOutcome.failed output changes)
        = ClassifyOutcome.ok { contentMatches := some false, isKnownBenignMismatch := some true }
    ∧ classify packageName version (DiffOutcome.failed output changes)
        = classify packageName version (DiffOutcome.failed output changes')
    ∧ classify packageName version DiffOutcome.identical
        = ClassifyOutcome.error "unexpected crash" { contentMatches := some true } := by
  have hout' : (strTrim output == "") = false := beq_eq_false_iff_ne.mpr hout
  refine ⟨?_, ?_, ?_⟩ <;> simp [classify, h, hout']

/-- C1 witness: instantiation of the amended statement at the allow-listed
pair `("safe-buffer", "5.2.1")`. -/
theorem c1_allowlist_skips_rules_witness :
    classify "safe-buffer" "5.2.1" (DiffOutcome.failed "x" [])
        = ClassifyOutcome.ok { contentMatches := some false, isKnownBenignMismatch := some true } :=
  (c1_allowlist_skips_rules "safe-buffer" "5.2.1" "x" [] [⟨ChangeType.change, "/a.js"⟩]
    (by decide) (by decide)).1

/-- C2: for a package outside the allow-list whose diff reports a non-empty
change set, `isKnownBenignMismatch` is `true` iff every change record
matches a benign rule; in particular one matching record together with one
non-matching record yields `false`. -/
theorem c2_all_or_nothing (packageName version output : String)
    (changes : List ChangeRecord)
    (h : inKnownMismatches packageName version = false)
    (hout : strTrim output ≠ "")
    (_hne : changes ≠ []) :
    ((classify packageName version (DiffOutcome.failed output changes)).finalVerdict.isKnownBenignMismatch
        = some true
      ↔ ∀ c ∈ changes, isBenignChange packageName c = true)
    ∧ ∀ c₁ c₂ : ChangeRecord, isBenignChange packageName c₁ = true →
        isBenignChange packageName c₂ = false →
        (classify packageName version
            (DiffOutcome.failed output [c₁, c₂])).finalVerdict.isKnownBenignMismatch
          = some false := by
  have hout' : (strTrim output == "") = false := beq_eq_false_iff_ne.mpr hout
  constructor
  · simp [classify, h, hout', ClassifyOutcome.finalVerdict, List.all_eq_true]
  · intro c₁ c₂ h₁ h₂
    simp [classify, h, hout', ClassifyOutcome.finalVerdict, h₁, h₂]

/-- C2 witness: instantiation at a non-allow-listed package with a singleton
benign change set. -/
theorem c2_all_or_nothing_witness :
    ((classify "cliui" "9.0.1"
          (DiffOutcome.failed "x"
            [⟨ChangeType.publishedOnly, "/CHANGELOG.md"⟩])).finalVerdict.isKnownBenignMismatch
        = some true
      ↔ ∀ c ∈ [(⟨ChangeType.publishedOnly, "/CHANGELOG.md"⟩ : ChangeRecord)],
          isBenignChange "cliui" c = true) :=
  (c2_all_or_nothing "cliui" "9.0.1" "x" [⟨ChangeType.publishedOnly, "/CHANGELOG.md"⟩]
    (by decide) (by decide) (by decide)).1

/-- C3: on every classification path, a verdict with `contentMatches = true`
has `isKnownBenignMismatch` absent (or false) — including the path where the
package is allow-listed but the diff finds no differences (which errors out
while leaving `contentMatches = true` and the benign flag unset). -/
theorem c3_matches_implies_not_benign (packageName version : String) (d : DiffOutcome)
    (h : (classify packageName version d).finalVerdict.contentMatches = some true) :
    (classify packageName version d).finalVerdict.isKnownBenignMismatch = none
    ∨ (classify packageName version d).finalVerdict.isKnownBenignMismatch = some false := by
  left
  cases d with
  | identical =>
    by_cases hk : inKnownMismatches packageName version = true <;>
      simp [classify, hk, ClassifyOutcome.finalVerdict]
  | failed output changes =>
    by_cases ht : (strTrim output == "") = true
    · simp [classify, ht, ClassifyOutcome.finalVerdict]
    · rw [Bool.not_eq_true] at ht
      by_cases hk : inKnownMismatches packageName version = true <;>
        simp [classify, hk, ht, ClassifyOutcome.finalVerdict] at h

/-- C3 witness: instantiation at a clean diff for a non-allow-listed
package. -/
theorem c3_matches_implies_not_benign_witness :
    (classify "lodash" "4.17.21" DiffOutcome.identical).finalVerdict.isKnownBenignMismatch = none
    ∨ (classify "lodash" "4.17.21"
          DiffOutcome.identical).finalVerdict.isKnownBenignMismatch = some false :=
  c3_matches_implies_not_benign "lodash" "4.17.21" DiffOutcome.identical (by decide)

/-- C7: for a package outside the allow-list, a tree pair whose only
difference is a published-side-only root `/CHANGELOG.md` classifies as
`contentMatches=false, isKnownBenignMismatch=true`; and prepending that
difference to any failed diff still leaves `contentMatches = false` (it can
never switch the verdict to `contentMatches=true`). -/
theorem c7_changelog_monotone (packageName version output : String)
    (l : List ChangeRecord)
    (h : inKnownMismatches packageName version = false)
    (hout : strTrim output ≠ "") :
    classify packageName version
        (DiffOutcome.failed output [⟨ChangeType.publishedOnly, "/CHANGELOG.md"⟩])
      = ClassifyOutcome.ok { contentMatches := some false, isKnownBenignMismatch := some true }
    ∧ (classify packageName version
          (DiffOutcome.failed output
            (⟨ChangeType.publishedOnly, "/CHANGELOG.md"⟩ :: l))).finalVerdict.contentMatches
      = some false := by
  have hout' : (strTrim output == "") = false := beq_eq_false_iff_ne.mpr hout
  constructor
  · simp [classify, h, hout', isBenignChange_changelog]
  · simp [classify, h, hout', ClassifyOutcome.finalVerdict]

/-- C7 witness: instantiation at a non-allow-listed package. -/
theorem c7_changelog_monotone_witness :
    classify "cliui" "9.0.1"
        (DiffOutcome.failed "Only in published: CHANGELOG.md"
          [⟨ChangeType.publishedOnly, "/CHANGELOG.md"⟩])
      = ClassifyOutcome.ok { contentMatches := some false, isKnownBenignMismatch := some true } :=
  (c7_changelog_monotone "cliui" "9.0.1" "Only in published: CHANGELOG.md"
    [⟨ChangeType.change, "/index.js"⟩] (by decide) (by decide)).1

/-- C8: a nonzero diff exit whose captured output is blank (whitespace-only)
is recorded as an unexpected-crash error, with `contentMatches` left unset —
never as a `contentMatches=false` mismatch verdict. -/
theorem c8_empty_diff_output (packageName version output : String)
    (changes : List ChangeRecord)
    (h : strTrim output = "") :
    classify packageName version (DiffOutcome.failed output changes)
      = ClassifyOutcome.error "unexpected crash" {}
    ∧ (classify packageName version
          (DiffOutcome.failed output changes)).finalVerdict.contentMatches
      ≠ some false := by
  have h' : (strTrim output == "") = true := by simp [h]
  constructor <;> simp [classify, h', ClassifyOutcome.finalVerdict]

/-- C8 witness: instantiation at a whitespace-only diff output. -/
theorem c8_empty_diff_output_witness :
    classify "lodash" "4.17.21" (DiffOutcome.failed " \n" [⟨ChangeType.change, "/a.js"⟩])
      = ClassifyOutcome.error "unexpected crash" {} :=
  (c8_empty_diff_output "lodash" "4.17.21" " \n" [⟨ChangeType.change, "/a.js"⟩] (by decide)).1

/-- C4 counterexample: with tags `1.0.0` and `foo-1.0.0` both present, the
code checks out `foo-1.0.0` (the `<name>-version` candidate comes first),
while the claimed order — bare version first — would pick `1.0.0`. -/
theorem c4_counterexample :
    (tagCheckoutLoop (possibleTagNames "foo" "1.0.0") ["1.0.0", "foo-1.0.0"]).1
      = some "foo-1.0.0"
    ∧ (tagCheckoutLoop (claimedTagNames "foo" "1.0.0") ["1.0.0", "foo-1.0.0"]).1
      = some "1.0.0"
    ∧ (buildPackage "foo" "1.0.0" { existingTags := ["1.0.0", "foo-1.0.0"] }).1.tag
      = some "foo-1.0.0"
    ∧ (buildPackage "foo" "1.0.0" { existingTags := ["1.0.0", "foo-1.0.0"] }).1.tag
      ≠ (tagCheckoutLoop (claimedTagNames "foo" "1.0.0") ["1.0.0", "foo-1.0.0"]).1 := by
  decide

/-- C4 (amended): the release-tag candidates are tried in this priority
order — `<name>-version`, `<name>-v<version>`, `<name>@<version>`,
`<name>/<version>`, then the bare version, then the `v`-prefixed version,
with (for names containing `/`) the same four name variants built from the
unscoped subname prepended at highest priority — and the tag checked out is
the first candidate in that order that exists. -/
theorem c4_tag_priority (packageName version : String) (existingTags : List String) :
    possibleTagNames packageName version
      = (if strContainsChar packageName '/' then
          [(strSplitOnChar packageName '/').getLastD "" ++ "-" ++ version,
           (strSplitOnChar packageName '/').getLastD "" ++ "-v" ++ version,
           (strSplitOnChar packageName '/').getLastD "" ++ "@" ++ version,
           (strSplitOnChar packageName '/').getLastD "" ++ "/" ++ version]
         else []) ++
        [packageName ++ "-" ++ version,
         packageName ++ "-v" ++ version,
         packageName ++ "@" ++ version,
         packageName ++ "/" ++ version,
         version,
         "v" ++ version]
    ∧ (tagCheckoutLoop (possibleTagNames packageName version) existingTags).1
      = (possibleTagNames packageName version).find? (fun t => existingTags.contains t) := by
  constructor
  · unfold possibleTagNames
    split <;> simp
  · exact tagCheckoutLoop_fst _ _

/-- C5: when the clone succeeds, the package is not an `@types/*` package,
and no candidate tag exists in the repository, the resolver fails with
error code `"no tag match"` (the spec's `no-tag-match`) and its step trace
contains no install, build, or pack step. -/
theorem c5_no_tag_match (packageName version : String) (env : RepoEnv)
    (hclone : env.cloneSucceeds = true)
    (htypes : strStartsWith packageName "@types/" = false)
    (hnotag : ∀ t ∈ possibleTagNames packageName version,
        env.existingTags.contains t = false) :
    (buildPackage packageName version env).1.errorCode = some "no tag match"
    ∧ ((buildPackage packageName version env).2.all
        fun s => !s.isInstallBuildOrPack) = true := by
  have hloop := tagCheckoutLoop_none (possibleTagNames packageName version)
    env.existingTags hnotag
  constructor <;>
    simp [buildPackage, hclone, htypes, hloop, List.all_map, Function.comp,
      BStep.isInstallBuildOrPack]

/-- C5 witness: a concrete no-tag repository. -/
theorem c5_no_tag_match_witness :
    (buildPackage "foo" "1.0.0" { existingTags := [] }).1.errorCode = some "no tag match"
    ∧ ((buildPackage "foo" "1.0.0" { existingTags := [] }).2.all
        fun s => !s.isInstallBuildOrPack) = true :=
  c5_no_tag_match "foo" "1.0.0" { existingTags := [] } (by decide) (by decide) (by decide)

/-- C6: if the subdirectory search of a scoped (slash-containing) package
name concludes that there is no matching subdirectory, then in particular
the unscoped hyphenated candidate `packages/<scope>-<sub>` had no manifest —
i.e. that candidate is tried before giving up — and concretely
`@babel/types` resolves to `packages/babel-types` when that directory
contains the manifest. -/
theorem c6_scoped_hyphen_candidate (packageName : String) (manifestDirs : List String)
    (hscoped : strContainsChar packageName '/' = true)
    (hnone : packageSubdirSearch packageName manifestDirs = none) :
    manifestDirs.contains
        ("packages/"
          ++ removeFirstAt ((strSplitOnChar packageName '/').headD "")
          ++ "-" ++ (strSplitOnChar packageName '/').getD 1 "")
      = false
    ∧ packageSubdirSearch "@babel/types" ["packages/babel-types"]
      = some "packages/babel-types" := by
  constructor
  · have h1 : (plainSubdirCandidates packageName).find?
        (fun d => manifestDirs.contains d) = none := by
      cases hfind : (plainSubdirCandidates packageName).find?
          (fun d => manifestDirs.contains d) with
      | none => rfl
      | some d =>
        unfold packageSubdirSearch at hnone
        rw [hfind] at hnone
        simp at hnone
    unfold packageSubdirSearch at hnone
    rw [h1, if_pos hscoped] at hnone
    have h2 := List.find?_eq_none.mp hnone
    have hmem : ("packages/"
          ++ removeFirstAt ((strSplitOnChar packageName '/').headD "")
          ++ "-" ++ (strSplitOnChar packageName '/').getD 1 "")
        ∈ scopedSubdirCandidates packageName := by
      simp [scopedSubdirCandidates]
    simpa using h2 _ hmem
  · decide

/-- C6 witness: a scoped name whose search finds nothing. -/
theorem c6_scoped_hyphen_candidate_witness :
    ([] : List String).contains
        ("packages/"
          ++ removeFirstAt ((strSplitOnChar "@a/b" '/').headD "")
          ++ "-" ++ (strSplitOnChar "@a/b" '/').getD 1 "")
      = false
    ∧ packageSubdirSearch "@babel/types" ["packages/babel-types"]
      = some "packages/babel-types" :=
  c6_scoped_hyphen_candidate "@a/b" [] (by decide) (by decide)

/-- C9 counterexample: a present-but-empty string repository descriptor is
falsy in JS, so it also produces the `no repository` failure — not only a
wholly absent descriptor. -/
theorem c9_counterexample :
    repoCheck (RepoField.strDesc "") = some "no repository"
    ∧ RepoField.strDesc "" ≠ RepoField.absent := by
  decide

/-- C9 (amended): a truthy descriptor whose `type` is absent or falsy is
assumed to be Git and the audit proceeds; `not git` occurs exactly for a
truthy descriptor with a truthy `type` different from `"git"`; and
`no repository` occurs exactly for a falsy descriptor (wholly absent, or
the empty string). -/
theorem c9_repo_type_check (r : RepoField) :
    (repoTruthy r = true → repoTypeTruthy r = false → repoCheck r = none)
    ∧ (repoCheck r = some "not git"
        ↔ repoTruthy r = true ∧ repoTypeTruthy r = true ∧ repoTypeField r ≠ some "git")
    ∧ (repoCheck r = some "no repository" ↔ repoTruthy r = false) := by
  cases r with
  | absent => simp [repoCheck, repoTruthy, repoTypeField, repoTypeTruthy]
  | strDesc s =>
    by_cases hs : s = "" <;>
      simp [repoCheck, repoTruthy, repoTypeField, repoTypeTruthy, hs]
  | objDesc t u =>
    cases t with
    | none => simp [repoCheck, repoTruthy, repoTypeField, repoTypeTruthy]
    | some ty =>
      by_cases hty : ty = "" <;> by_cases hgit : ty = "git" <;>
        simp [repoCheck, repoTruthy, repoTypeField, repoTypeTruthy, hty, hgit]

/-- C9 witness: a bare nonempty string descriptor (no `type` field) is
assumed to be Git. -/
theorem c9_repo_type_check_witness :
    repoCheck (RepoField.strDesc "https://github.com/npm/cli") = none :=
  (c9_repo_type_check (RepoField.strDesc "https://github.com/npm/cli")).1
    (by decide) (by decide)

/-- C10 counterexample: the repository-specific overrides run regardless of
the `@types/*` special case, so an `@types/*` package whose repository URL
is the Babel monorepo does get a build attempt (`make prepublish`). -/
theorem c10_counterexample :
    strStartsWith "@types/node" "@types/" = true
    ∧ ((buildPackage "@types/node" "1.0.0"
          { gitUrl := "https://github.com/babel/babel.git",
            manifestDirs := ["", "types/node"] }).2).contains
        (BStep.buildRun ["make", "prepublish"] none) = true := by
  decide

/-- C10 (amended): for an `@types/*` package whose repository URL is not one
of the hard-coded special-case monorepos (Babel, React), whose directory
(the package name with the leading `@` stripped) holds a manifest and is
the directory the subdirectory search finds, and which has no nested
`build/package.json`, the resolver attempts no tag checkout, no dependency
install and no build script; it packs that directory as checked out at the
clone's default-branch head, and records no chosen tag. -/
theorem c10_types_skip (packageName version : String) (env : RepoEnv)
    (htypes : strStartsWith packageName "@types/" = true)
    (hclone : env.cloneSucceeds = true)
    (hbabel : env.gitUrl ≠ "https://github.com/babel/babel.git")
    (hreact : env.gitUrl ≠ "https://github.com/facebook/react.git")
    (hman : env.manifestDirs.contains (strDrop1 packageName) = true)
    (hsub : packageSubdirSearch packageName env.manifestDirs
        = some (strDrop1 packageName))
    (hnobuild : env.manifestDirs.contains (joinRel (strDrop1 packageName) "build")
        = false) :
    (buildPackage packageName version env).1.tag = none
    ∧ ((buildPackage packageName version env).2.all
        fun s => !s.isCheckoutInstallOrBuild) = true
    ∧ BStep.packRun (strDrop1 packageName) ∈ (buildPackage packageName version env).2 := by
  have hbabel' : (env.gitUrl == "https://github.com/babel/babel.git") = false :=
    beq_eq_false_iff_ne.mpr hbabel
  have hreact' : (env.gitUrl == "https://github.com/facebook/react.git") = false :=
    beq_eq_false_iff_ne.mpr hreact
  refine ⟨?_, ?_, ?_⟩ <;>
    simp only [buildPackage, specialCaseAndPackPhase, hclone, htypes, hman, hsub,
      hnobuild, hbabel', hreact', Bool.not_true, Bool.false_eq_true, if_false,
      if_true, Bool.not_false] <;>
    (repeat' split) <;>
    first
      | rfl
      | simp_all [BStep.isCheckoutInstallOrBuild]

/-- C10 witness: `@types/node` inside the DefinitelyTyped layout. -/
theorem c10_types_skip_witness :
    (buildPackage "@types/node" "1.0.0" { manifestDirs := ["", "types/node"] }).1.tag = none
    ∧ ((buildPackage "@types/node" "1.0.0" { manifestDirs := ["", "types/node"] }).2.all
        fun s => !s.isCheckoutInstallOrBuild) = true
    ∧ BStep.packRun (strDrop1 "@types/node")
        ∈ (buildPackage "@types/node" "1.0.0" { manifestDirs := ["", "types/node"] }).2 :=
  c10_types_skip "@types/node" "1.0.0" { manifestDirs := ["", "types/node"] }
    (by decide) (by decide) (by decide) (by decide) (by decide) (by decide) (by decide)

end SourceVsNpm
